import Mathlib

/-!
Verification of the SDH dashboard's indicator classification engine
(`UnitSystem`), its CSV ingestion pipeline (`processCSVData`), the import
batch-upsert loop, and the map color-scale / district join logic.

Modelling conventions (shallow embedding of the TypeScript source):
* JS numbers are modelled as `ℚ`; a possibly-absent / not-a-number value
  (null, undefined, NaN) is `Option ℚ` with `none` standing for all three
  (after `parseFloat`/`parseInt`, null/undefined/NaN behave identically in
  every code path modelled here).
* Division is modelled by `qdiv?`, which returns `none` exactly when the
  denominator is zero, i.e. when the JS division would not produce an
  ordinary finite number.
* CSV row fields are strings, `""` standing for an absent cell (the CSV
  split in `handleFileUpload` maps every header to `values[i]?.trim() || ''`,
  so a missing cell and an empty cell are both the empty string, which is
  exactly the falsy case tested by the source's `row['X'] ?`/`&&` guards).
* `parseFloat`/`parseInt` are modelled on sign + decimal digit strings
  (longest numeric prefix, as in JS); exponent/hex forms are outside the
  modelled fragment and parse to `none` here.
* `Array.prototype.sort(cmp)` is modelled by a stable insertion sort
  `jsSortBy le` where `le a b` means `cmp a b ≤ 0`, a comparator result of
  NaN counting as `0` as in the ECMAScript SortCompare specification.
-/

namespace SDH

/-- Division that fails (models a JS division whose result is not an
ordinary finite number) exactly on a zero denominator. -/
def qdiv? (a b : ℚ) : Option ℚ :=
  if b = 0 then none else some (a / b)

/-- The six status labels (`Indicator['status']` string literals). -/
inductive Status where
  | targetAchieved
  | improving
  | gettingWorse
  | littleOrNoChange
  | noData
  | baselineOnly
deriving DecidableEq, Repr

/-- The `'direct' | 'reverse'` indicator directionality.  Every dispatch in
the source is `indicatorType === 'direct' ? _ : _`, so any runtime string
other than `'direct'` behaves as `reverse`; `parseIndicatorType` below
reflects that. -/
inductive IndicatorType where
  | direct
  | reverse
deriving DecidableEq, Repr

/-- `UnitSystem.isNoData` (part_002 lines 430-437): null, undefined, NaN
(all `none` here) or the sentinel `-999`. -/
def isNoData : Option ℚ → Bool
  | none => true
  | some v => v = -999

/-- `Math.min(100, Math.max(0, x))`. -/
def clamp100 (x : ℚ) : ℚ := min 100 (max 0 x)

/-- `UnitSystem.calculateProgress` (part_002 lines 457-498).  The result is
`none` exactly when a division by zero would occur; the `range === 0`
guards in the source make that impossible, which is proved below. -/
def calculateProgress (current baseline target : Option ℚ)
    (indicatorType : IndicatorType) : Option ℚ :=
  if isNoData current || isNoData baseline || isNoData target then some 0
  else
    let c := current.getD 0
    let b := baseline.getD 0
    let t := target.getD 0
    match indicatorType with
    | .direct =>
      if c ≥ t then some 100
      else
        let range := t - b
        if range = 0 then some 0
        else (qdiv? (c - b) range).map (fun x => clamp100 (x * 100))
    | .reverse =>
      if c ≤ t then some 100
      else if c > b then some 0
      else
        let range := b - t
        if range = 0 then some 0
        else (qdiv? (b - c) range).map (fun x => clamp100 (x * 100))

/-- `UnitSystem.calculateStatus` (part_002 lines 500-552).  The
`getD 0` on the recursive `calculateProgress` call is harmless:
`calculateProgress_isSome` below shows the call always yields `some`. -/
def calculateStatus (current baseline target : Option ℚ)
    (indicatorType : IndicatorType) (numberOfYears : ℕ) : Status :=
  if isNoData current || isNoData baseline || isNoData target then .noData
  else if numberOfYears ≤ 1 then .baselineOnly
  else
    let c := current.getD 0
    let b := baseline.getD 0
    let t := target.getD 0
    if c = b then .baselineOnly
    else
      let isTarget : Bool := match indicatorType with
        | .direct => c ≥ t
        | .reverse => c ≤ t
      if isTarget then
        let isDecline : Bool := match indicatorType with
          | .direct => c < b
          | .reverse => c > b
        if isDecline then .gettingWorse else .targetAchieved
      else
        let isImproving : Bool := match indicatorType with
          | .direct => c ≥ b
          | .reverse => c ≤ b
        if !isImproving then .gettingWorse
        else
          let progress := (calculateProgress current baseline target indicatorType).getD 0
          if progress ≥ 25 then .improving else .littleOrNoChange

/-! ## Import batch-upsert loop (handleFileUpload)

Both dashboard variants run `for (let i = 0; i < supabaseData.length;
i += BATCH_SIZE)` with `BATCH_SIZE = 50` and `batch = supabaseData.slice(i,
i + BATCH_SIZE)`.  The part_003 variant upserts `batch`; the part_002
variant computes `batch` but then upserts the whole `supabaseData` array in
every iteration.  `batchStarts n` is the list of loop indices `i`. -/

/-- Loop counter values of `for (i = 0; i < n; i += 50)`. -/
def batchStarts (n : ℕ) : List ℕ :=
  (List.range n).filter (fun i => i % 50 = 0)

/-- Upsert payloads sent by the part_003 loop (lines 1824-1835): the slice
`supabaseData.slice(i, i + 50)` for each loop index. -/
def upsertPayloadsSliced (l : List α) : List (List α) :=
  (batchStarts l.length).map (fun i => (l.drop i).take 50)

/-- Upsert payloads sent by the part_002 loop (lines 2183-2198): `batch` is
computed but the call passes the whole `supabaseData` array each time. -/
def upsertPayloadsWhole (l : List α) : List (List α) :=
  (batchStarts l.length).map (fun _ => l)

/-- Sequential sending with abort: the calls actually performed are the
payloads up to and including the first failing one (`throw error` leaves
the loop). -/
def performedCalls (ok : List α → Bool) : List (List α) → List (List α)
  | [] => []
  | p :: ps => if ok p then p :: performedCalls ok ps else [p]

/-! ## JS string and number helpers -/

/-- Longest decimal digit prefix of a character list, as digit values,
with the rest of the list. -/
def spanDigits : List Char → List ℕ × List Char
  | [] => ([], [])
  | c :: cs =>
    if c.isDigit then
      let (ds, rest) := spanDigits cs
      ((c.toNat - 48) :: ds, rest)
    else ([], c :: cs)

/-- Value of a digit list read in base 10. -/
def natOfDigits (ds : List ℕ) : ℕ := ds.foldl (fun acc d => 10 * acc + d) 0

/-- JS `parseInt(s)` on an already-trimmed string: optional sign followed
by the longest digit prefix; NaN (`none`) when there is no digit.
Hex/exponent forms are outside the modelled fragment. -/
def jsParseInt (s : String) : Option ℤ :=
  let (neg, cs) : Bool × List Char :=
    match s.toList with
    | '-' :: r => (true, r)
    | '+' :: r => (false, r)
    | r => (false, r)
  let (ds, _) := spanDigits cs
  if ds = [] then none
  else some (if neg then -(natOfDigits ds : ℤ) else (natOfDigits ds : ℤ))

/-- JS `parseFloat(s)` on an already-trimmed string: optional sign, digits,
optional decimal point and digits; NaN (`none`) when no digit is found.
Exponent forms are outside the modelled fragment. -/
def jsParseFloat (s : String) : Option ℚ :=
  let (neg, cs) : Bool × List Char :=
    match s.toList with
    | '-' :: r => (true, r)
    | '+' :: r => (false, r)
    | r => (false, r)
  let (ds, rest) := spanDigits cs
  let fs : List ℕ :=
    match rest with
    | '.' :: r => (spanDigits r).1
    | _ => []
  if ds = [] ∧ fs = [] then none
  else
    let n : ℤ := natOfDigits (ds ++ fs)
    some (mkRat (if neg then -n else n) (10 ^ fs.length))

/-- JS `String.prototype.padStart(n, c)` with a one-character pad. -/
def jsPadStart (s : String) (n : ℕ) (c : Char) : String :=
  if n ≤ s.length then s
  else String.mk (List.replicate (n - s.length) c) ++ s

/-- `Array.from(new Set(xs))`: deduplication keeping first occurrences. -/
def jsSetDedup : List String → List String
  | [] => []
  | a :: l => a :: jsSetDedup (l.filter (fun x => x ≠ a))
termination_by l => l.length
decreasing_by
  simp only [List.length_cons]
  exact Nat.lt_succ_of_le (List.length_filter_le _ _)

/-- Stable insertion used by the `Array.prototype.sort` model. -/
def insertLe (le : α → α → Bool) (a : α) : List α → List α
  | [] => [a]
  | b :: l => if le a b then a :: b :: l else b :: insertLe le a l

/-- Stable sort modelling `Array.prototype.sort(cmp)`; `le a b` stands for
`cmp(a, b) <= 0`. -/
def jsSortBy (le : α → α → Bool) : List α → List α
  | [] => []
  | a :: l => insertLe le a (jsSortBy le l)

/-- The numeric comparator `parseInt(a) - parseInt(b)`; a NaN comparator
result counts as `+0` (ECMAScript SortCompare). -/
def jsCompareNum : Option ℤ → Option ℤ → ℤ
  | some a, some b => a - b
  | _, _ => 0

/-- `cmp(a, b) <= 0` for the numeric year comparator. -/
def yearLe (a b : String) : Bool := jsCompareNum (jsParseInt a) (jsParseInt b) ≤ 0

/-! ## Data model (part_002 interfaces) -/

/-- One parsed CSV row: each recognized header's trimmed cell, `""` for a
missing cell (`values[index]?.trim() || ''` in `handleFileUpload`). -/
structure Row where
  indicatorId : String := ""
  domain : String := ""
  subdomain : String := ""
  title : String := ""
  description : String := ""
  unit : String := ""
  indicatorType : String := ""
  target : String := ""
  baseline : String := ""
  current : String := ""
  year : String := ""
  total : String := ""
  methodology : String := ""
  dataSources : String := ""
  targetMethod : String := ""
  disaggregationCategory : String := ""
  disaggregationValue : String := ""
  percentage : String := ""
  district_code : String := ""
  district_name : String := ""
  value : String := ""
deriving DecidableEq, Repr

structure DisaggregationData where
  category : String
  value : String
  percentage : ℚ
deriving DecidableEq, Repr

structure DistrictDataPoint where
  district_code : String
  district_name : String
  value : Option ℚ
deriving DecidableEq, Repr

structure TimeSeriesDataPoint where
  year : String
  total : Option ℚ
  disaggregation : List DisaggregationData
  district_data : List DistrictDataPoint
deriving DecidableEq, Repr

structure IndicatorDetails where
  methodology : String
  dataSources : List String
  targetMethod : String
  relevantPolicies : List (String × String)
deriving DecidableEq, Repr

structure Indicator where
  id : String
  domain : String
  subdomain : String
  title : String
  description : String
  unit : String
  indicatorType : IndicatorType
  target : Option ℚ
  baseline : Option ℚ
  current : Option ℚ
  currentYear : Option ℤ
  warning : String
  status : Status
  disaggregationTypes : List String
  timeSeriesData : List TimeSeriesDataPoint
  details : IndicatorDetails
deriving DecidableEq, Repr

/-- `(row['IndicatorType']?.toLowerCase() || 'direct')`: the `as` cast does
not validate, and every later dispatch is `=== 'direct' ? _ : _`, so any
string whose lowercase form is not `direct` (and is nonempty) behaves as
`reverse`. -/
def parseIndicatorType (s : String) : IndicatorType :=
  if s = "" then .direct
  else if s.toLower = "direct" then .direct
  else .reverse

/-- The comparator of the disaggregation sort:
`a.category.localeCompare(b.category) || a.value.localeCompare(b.value)`,
string comparison modelled by codepoint order. -/
def disaggLe (a b : DisaggregationData) : Bool :=
  if a.category < b.category then true
  else if b.category < a.category then false
  else a.value ≤ b.value

/-- Year comparator on time-series points:
`parseInt(a.year) - parseInt(b.year)`. -/
def pointYearLe (p q : TimeSeriesDataPoint) : Bool := yearLe p.year q.year

/-! ## processCSVData (part_002 lines 715-907) -/

/-- The indicator record built on the first occurrence of an id
(part_002 lines 720-795). -/
def initIndicator (data : List Row) (row : Row) : Indicator :=
  let id := row.indicatorId
  let disaggregationTypes := jsSetDedup
    (((data.filter (fun r => r.indicatorId = id)).map
        (fun r => r.disaggregationCategory)).filter (fun s => s ≠ ""))
  let yearsWithData := jsSortBy yearLe (jsSetDedup
    ((data.filter (fun r =>
        r.indicatorId = id ∧ r.total ≠ "" ∧ (jsParseFloat r.total).isSome)).map
      (fun r => r.year)))
  let numberOfYears := yearsWithData.length
  let current := if row.current ≠ "" then jsParseFloat row.current else none
  let baseline := if row.baseline ≠ "" then jsParseFloat row.baseline else none
  let target := if row.target ≠ "" then jsParseFloat row.target else none
  let year := if row.year ≠ "" then jsParseInt row.year else none
  let dataSources :=
    if row.dataSources ≠ "" then (row.dataSources.splitOn ";").map (fun s => s.trim)
    else []
  let warning :=
    if current.isNone then "Missing current value"
    else if baseline.isNone then "Missing baseline value"
    else if target.isNone then "Missing target value"
    else if numberOfYears ≤ 1 then "Only baseline data available"
    else ""
  let status := calculateStatus current baseline target
    (parseIndicatorType row.indicatorType) numberOfYears
  { id := id
    domain := row.domain
    subdomain := row.subdomain
    title := row.title
    description := row.description
    unit := if row.unit ≠ "" then row.unit else "%"
    indicatorType := parseIndicatorType row.indicatorType
    target := target
    baseline := baseline
    current := current
    currentYear := year
    warning := warning
    status := status
    disaggregationTypes := disaggregationTypes
    timeSeriesData := []
    details :=
      { methodology := row.methodology
        dataSources := dataSources
        targetMethod := row.targetMethod
        relevantPolicies := [] } }

/-- Contribution of one row to the time-series point of its year:
disaggregation entry (deduplicated on (category, value)) and district
entry (code zero-padded to 4, deduplicated on code); part_002 lines
814-853. -/
def updPoint (row : Row) (p : TimeSeriesDataPoint) : TimeSeriesDataPoint :=
  let p1 :=
    if row.disaggregationCategory ≠ "" ∧ row.disaggregationValue ≠ "" ∧
        row.percentage ≠ "" then
      match jsParseFloat row.percentage with
      | some pct =>
        if (p.disaggregation.find? (fun d =>
            d.category == row.disaggregationCategory &&
              d.value == row.disaggregationValue)).isSome then p
        else { p with disaggregation := p.disaggregation ++
          [{ category := row.disaggregationCategory
             value := row.disaggregationValue
             percentage := pct }] }
      | none => p
    else p
  if row.district_code ≠ "" ∧ row.district_name ≠ "" ∧ row.value ≠ "" then
    let districtCode := jsPadStart row.district_code 4 '0'
    if (p1.district_data.find? (fun d => d.district_code == districtCode)).isSome
    then p1
    else { p1 with district_data := p1.district_data ++
      [{ district_code := districtCode
         district_name := row.district_name
         value := jsParseFloat row.value }] }
  else p1

/-- Mutation of the unique time-series point found by
`timeSeriesData.find(t => t.year === row['Year'])`. -/
def updateFirstPoint (yr : String) (f : TimeSeriesDataPoint → TimeSeriesDataPoint) :
    List TimeSeriesDataPoint → List TimeSeriesDataPoint
  | [] => []
  | p :: ps => if p.year == yr then f p :: ps else p :: updateFirstPoint yr f ps

/-- The time-series part of the per-row loop (part_002 lines 797-854):
only when `Total` parses and `Year` is nonempty; find-or-create the point
for the year (first total wins), then merge the row's disaggregation and
district data into it. -/
def addTimeSeries (row : Row) (ind : Indicator) : Indicator :=
  let timeSeriesTotal := if row.total ≠ "" then jsParseFloat row.total else none
  if timeSeriesTotal.isSome ∧ row.year ≠ "" then
    let pts0 :=
      if (ind.timeSeriesData.find? (fun t => t.year == row.year)).isSome then
        ind.timeSeriesData
      else ind.timeSeriesData ++
        [{ year := row.year, total := timeSeriesTotal
           disaggregation := [], district_data := [] }]
    { ind with timeSeriesData := updateFirstPoint row.year (updPoint row) pts0 }
  else ind

/-- One iteration of `data.forEach(row => ...)`: `processedData` is an
insertion-ordered association list keyed by `row['Indicator ID']` (any id,
including the empty string, is a legal object key). -/
def processRow (data : List Row) (acc : List (String × Indicator)) (row : Row) :
    List (String × Indicator) :=
  let id := row.indicatorId
  let acc1 :=
    if (acc.find? (fun kv => kv.1 == id)).isSome then acc
    else acc ++ [(id, initIndicator data row)]
  acc1.map (fun kv => if kv.1 == id then (kv.1, addTimeSeries row kv.2) else kv)

/-- The post-processing pass over one indicator (part_002 lines 858-904):
filter out points with unparsed totals, sort points by numeric year, sort
each disaggregation list, force the count-0/count-1 warning, backfill a
missing current from the latest point, and recompute the status (the
forced `No Data`/`Baseline Only` status of lines 881-887 is immediately
overwritten by the unconditional recomputation of lines 897-903, so only
its warning survives). -/
def postProcessIndicator (ind : Indicator) : Indicator :=
  let ts1 := ind.timeSeriesData.filter (fun point => point.total.isSome)
  let ts2 := jsSortBy pointYearLe ts1
  let ts3 := ts2.map (fun point =>
    { point with disaggregation := jsSortBy disaggLe point.disaggregation })
  let validYearsCount := ts3.length
  let warning1 :=
    if validYearsCount = 0 then "No time series data available"
    else if validYearsCount = 1 then "Only baseline data available"
    else ind.warning
  let backfill :=
    if ind.current.isNone then
      match ts3.getLast? with
      | some latestData => (latestData.total, jsParseInt latestData.year)
      | none => (ind.current, ind.currentYear)
    else (ind.current, ind.currentYear)
  let status2 := calculateStatus backfill.1 ind.baseline ind.target
    ind.indicatorType validYearsCount
  { ind with
    timeSeriesData := ts3
    warning := warning1
    current := backfill.1
    currentYear := backfill.2
    status := status2 }

/-- `processCSVData` (part_002 lines 715-907). -/
def processCSVData (data : List Row) : List Indicator :=
  ((data.foldl (processRow data) []).map (fun kv => kv.2)).map postProcessIndicator

/-! ## LeafletMap district join and color scale -/

/-- The geometry join
`districtData.find(d => d.district_code === feature?.properties.dcode)`
(LeafletMap.tsx line 91). -/
def findDistrict (districtData : List DistrictDataPoint) (dcode : String) :
    Option DistrictDataPoint :=
  districtData.find? (fun d => d.district_code == dcode)

/-- `Math.min(...values)` over the year's district values. -/
def jsMin : List ℚ → Option ℚ
  | [] => none
  | a :: l => some (l.foldl min a)

/-- `Math.max(...values)` over the year's district values. -/
def jsMax : List ℚ → Option ℚ
  | [] => none
  | a :: l => some (l.foldl max a)

/-- `getColor` (LeafletMap.tsx lines 84-87 and 213-216): the `(r, g, b)`
channels of `rgb(255*(1-normalized), 255*(1-normalized), 255)` where
`normalized = (value - min) / (max - min)`; `none` models a NaN
`normalized` (the unguarded `0/0` when `min === max`), for which the rgb
string contains NaN and is not a valid color. -/
def getColor (value mn mx : ℚ) : Option (ℚ × ℚ × ℚ) :=
  (qdiv? (value - mn) (mx - mn)).map
    (fun normalized => (255 * (1 - normalized), 255 * (1 - normalized), 255))

/-! ## Distinctness relations and fold invariants -/

/-- The distinctness relation of disaggregation entries (the dedupe test
`d.category === c && d.value === v` before pushing). -/
def DisaggDistinct (d e : DisaggregationData) : Prop :=
  ¬ (d.category = e.category ∧ d.value = e.value)

/-! ## Invariants of the ingestion fold -/

/-- No two time-series points of an indicator carry the same year string
(the `find(t => t.year === row['Year'])` dedupe). -/
def YearsDistinct (i : Indicator) : Prop :=
  i.timeSeriesData.Pairwise (fun p q => p.year ≠ q.year)

/-- Every point's disaggregation list is pairwise distinct on
(category, value). -/
def DisaggOk (i : Indicator) : Prop :=
  ∀ p ∈ i.timeSeriesData, p.disaggregation.Pairwise DisaggDistinct

/-- Every stored district code is the zero-padded form of some input row's
`district_code`. -/
def DistrictsFrom (data : List Row) (i : Indicator) : Prop :=
  ∀ p ∈ i.timeSeriesData, ∀ d ∈ p.district_data,
    ∃ r ∈ data, d.district_code = jsPadStart r.district_code 4 '0'

/-- The state invariant carried through the whole ingestion fold. -/
def EntryOk (data : List Row) (kv : String × Indicator) : Prop :=
  kv.2.id = kv.1 ∧ YearsDistinct kv.2 ∧ DisaggOk kv.2 ∧ DistrictsFrom data kv.2

/-- Input of the C3 counterexample: a single row with a parsable total but
no current/baseline/target. -/
def baselineRow : Row := { indicatorId := "IND-01", year := "2020", total := "50" }

/-- Input of the C3 witness: one row with one point and valid values. -/
def fullRow : Row :=
  { indicatorId := "W-03", year := "2020", total := "50", current := "50",
    baseline := "40", target := "80" }

/-- The all-fields-empty indicator, used only to make `headD` total in
concrete witness statements. -/
def emptyIndicator : Indicator :=
  { id := "", domain := "", subdomain := "", title := "", description := ""
    unit := "", indicatorType := .direct, target := none, baseline := none
    current := none, currentYear := none, warning := "", status := .noData
    disaggregationTypes := [], timeSeriesData := []
    details := { methodology := "", dataSources := [], targetMethod := ""
                 relevantPolicies := [] } }

/-- Input of the C5 counterexample: one indicator whose rows carry year
strings "x", "9", "y", "5" with parsable totals. -/
def sortCexRows : List Row :=
  [{ indicatorId := "X", year := "x", total := "1" },
   { indicatorId := "X", year := "9", total := "2" },
   { indicatorId := "X", year := "y", total := "3" },
   { indicatorId := "X", year := "5", total := "4" }]

/-- Input of the C5 witness: two rows with parseable years and one
disaggregation entry. -/
def sortWitnessRows : List Row :=
  [{ indicatorId := "W-05", year := "2021", total := "60"
     disaggregationCategory := "sex", disaggregationValue := "f"
     percentage := "40" },
   { indicatorId := "W-05", year := "2020", total := "50" }]

/-- Input of the C8 counterexample: a single row with an empty
`Indicator ID`. -/
def emptyIdRow : Row := { indicatorId := "", year := "2020", total := "50" }

/-- Input of the C9 witness: a row carrying a district value with the
2-character code "12". -/
def districtRow : Row :=
  { indicatorId := "D-01", year := "2020", total := "7"
    district_code := "12", district_name := "Foo", value := "3" }

/-- The all-fields-empty time-series point, used only to make `headD`
total in concrete witness statements. -/
def emptyPoint : TimeSeriesDataPoint :=
  { year := "", total := none, disaggregation := [], district_data := [] }

/-- The source's guarded divisions never fail: `calculateProgress` always
returns `some`. -/
theorem calculateProgress_isSome (current baseline target : Option ℚ)
    (it : IndicatorType) :
    (calculateProgress current baseline target it).isSome := by
  unfold calculateProgress
  split
  · rfl
  · rename_i hnd
    cases it <;> simp only
    · split
      · rfl
      · split
        · rfl
        · rename_i hr
          simp [qdiv?, hr]
    · split
      · rfl
      · split
        · rfl
        · split
          · rfl
          · rename_i hr
            simp [qdiv?, hr]

/-- `clamp100` output is monotone. -/
theorem clamp100_mono {x y : ℚ} (h : x ≤ y) : clamp100 x ≤ clamp100 y :=
  min_le_min le_rfl (max_le_max le_rfl h)

/-- `clamp100` output is in the interval. -/
theorem clamp100_mem (x : ℚ) : 0 ≤ clamp100 x ∧ clamp100 x ≤ 100 :=
  ⟨le_min (by norm_num) (le_max_left 0 x), min_le_left 100 (max 0 x)⟩

/-- `calculateProgress` on valid direct inputs with a nonzero range. -/
theorem calculateProgress_direct_valid (cv bv tv : ℚ)
    (hc : cv ≠ -999) (hb : bv ≠ -999) (ht : tv ≠ -999) (hr : tv - bv ≠ 0) :
    calculateProgress (some cv) (some bv) (some tv) .direct =
      some (if tv ≤ cv then 100 else clamp100 ((cv - bv) / (tv - bv) * 100)) := by
  simp only [calculateProgress, isNoData, decide_eq_true_eq, qdiv?, hr,
    Bool.or_eq_true, Option.getD_some, ge_iff_le]
  simp [hc, hb, ht, hr]
  split_ifs <;> rfl

/-- `calculateProgress` on valid reverse inputs with a nonzero range. -/
theorem calculateProgress_reverse_valid (cv bv tv : ℚ)
    (hc : cv ≠ -999) (hb : bv ≠ -999) (ht : tv ≠ -999) (hr : bv - tv ≠ 0) :
    calculateProgress (some cv) (some bv) (some tv) .reverse =
      some (if cv ≤ tv then 100
            else if bv < cv then 0
            else clamp100 ((bv - cv) / (bv - tv) * 100)) := by
  simp only [calculateProgress, isNoData, decide_eq_true_eq, qdiv?, hr,
    Bool.or_eq_true, Option.getD_some, gt_iff_lt]
  simp [hc, hb, ht, hr]
  split_ifs <;> rfl

/-- Every value `calculateProgress` returns lies in `[0, 100]`. -/
theorem calculateProgress_bounds (c b t : Option ℚ) (it : IndicatorType)
    {p : ℚ} (h : calculateProgress c b t it = some p) :
    0 ≤ p ∧ p ≤ 100 := by
  unfold calculateProgress at h
  split at h
  · cases h; norm_num
  · cases it <;> simp only at h
    · split at h
      · cases h; norm_num
      · split at h
        · cases h; norm_num
        · rename_i hr
          simp only [qdiv?, hr, if_false, Option.map_some'] at h
          cases h
          exact clamp100_mem _
    · split at h
      · cases h; norm_num
      · split at h
        · cases h; norm_num
        · split at h
          · cases h; norm_num
          · rename_i hr
            simp only [qdiv?, hr, if_false, Option.map_some'] at h
            cases h
            exact clamp100_mem _

/-- C1: if any of current, baseline or target is a no-data value (null,
undefined, NaN or the -999 sentinel), `calculateStatus` returns `No Data`
regardless of the other arguments, including `numberOfYears`, and
`calculateProgress` returns 0. -/
theorem noData_forces_noData_status_and_zero_progress
    (current baseline target : Option ℚ) (it : IndicatorType) (n : ℕ)
    (h : isNoData current || isNoData baseline || isNoData target) :
    calculateStatus current baseline target it n = Status.noData ∧
      calculateProgress current baseline target it = some 0 := by
  constructor
  · unfold calculateStatus
    simp [h]
  · unfold calculateProgress
    simp [h]

/-- Concrete instance of `noData_forces_noData_status_and_zero_progress`:
current is the -999 sentinel, five years of data. -/
theorem noData_forces_noData_status_and_zero_progress_witness :
    calculateStatus (some (-999)) (some 5) (some 7) .direct 5 = Status.noData ∧
      calculateProgress (some (-999)) (some 5) (some 7) .direct = some 0 :=
  noData_forces_noData_status_and_zero_progress
    (some (-999)) (some 5) (some 7) .direct 5 (by decide)

/-- C2 fails as stated: at current = baseline = 5, target = 3, direction
direct, five years of data, all three values are valid and
current ≥ target, yet `calculateStatus` returns `Baseline Only` (the
`current === baseline` precedence step), not `Target Achieved` or
`Getting Worse`. -/
theorem direct_target_reached_status_counterexample :
    isNoData (some (5 : ℚ)) = false ∧ isNoData (some (3 : ℚ)) = false ∧
      (3 : ℚ) ≤ 5 ∧
      calculateStatus (some 5) (some 5) (some 3) .direct 5 = Status.baselineOnly ∧
      Status.baselineOnly ≠ Status.targetAchieved ∧
      Status.baselineOnly ≠ Status.gettingWorse := by
  refine ⟨by decide, by decide, by norm_num, ?_, by decide, by decide⟩
  decide

/-- C2 (amended): for valid current, baseline, target with direction
direct, current ≥ target, at least two years of data and
current ≠ baseline, `calculateStatus` returns `Target Achieved` or
`Getting Worse`, and `Getting Worse` exactly when current < baseline. -/
theorem direct_target_reached_status (cv bv tv : ℚ) (n : ℕ)
    (hc : cv ≠ -999) (hb : bv ≠ -999) (ht : tv ≠ -999)
    (hn : 2 ≤ n) (hne : cv ≠ bv) (hts : tv ≤ cv) :
    (calculateStatus (some cv) (some bv) (some tv) .direct n = Status.targetAchieved ∨
      calculateStatus (some cv) (some bv) (some tv) .direct n = Status.gettingWorse) ∧
      (calculateStatus (some cv) (some bv) (some tv) .direct n = Status.gettingWorse ↔
        cv < bv) := by
  have hn1 : ¬ n ≤ 1 := by omega
  by_cases hlt : cv < bv
  · have hgw : calculateStatus (some cv) (some bv) (some tv) .direct n =
        Status.gettingWorse := by
      simp only [calculateStatus, isNoData]
      simp [hc, hb, ht, hn1, hne, hts, hlt]
    rw [hgw]
    exact ⟨Or.inr rfl, by simp [hlt]⟩
  · have hta : calculateStatus (some cv) (some bv) (some tv) .direct n =
        Status.targetAchieved := by
      simp only [calculateStatus, isNoData]
      simp [hc, hb, ht, hn1, hne, hts, hlt]
    rw [hta]
    refine ⟨Or.inl rfl, ?_⟩
    constructor
    · intro h; cases h
    · intro h; exact absurd h hlt

/-- Concrete instance of `direct_target_reached_status`: current 9,
baseline 4, target 8, three years. -/
theorem direct_target_reached_status_witness :
    (calculateStatus (some 9) (some 4) (some 8) .direct 3 = Status.targetAchieved ∨
      calculateStatus (some 9) (some 4) (some 8) .direct 3 = Status.gettingWorse) ∧
      (calculateStatus (some 9) (some 4) (some 8) .direct 3 = Status.gettingWorse ↔
        (9 : ℚ) < 4) :=
  direct_target_reached_status 9 4 8 3 (by norm_num) (by norm_num) (by norm_num)
    (by norm_num) (by norm_num) (by norm_num)

/-- C4 fails as stated: with baseline 10, target 0 (reverse, target <
baseline), moving current from -999 to -998 makes progress jump from 0 to
100, because -999 is the no-data sentinel and short-circuits to 0; so
progress is not monotonically non-increasing in current. -/
theorem calculateProgress_monotone_counterexample :
    (0 : ℚ) < 10 ∧ (-999 : ℚ) ≤ -998 ∧
      calculateProgress (some (-999)) (some 10) (some 0) .reverse = some 0 ∧
      calculateProgress (some (-998)) (some 10) (some 0) .reverse = some 100 ∧
      ¬ ((100 : ℚ) ≤ 0) := by
  refine ⟨by norm_num, by norm_num, by decide, by decide, by norm_num⟩

/-- C4 (amended): `calculateProgress` always returns a value in [0, 100];
restricted to valid (non-no-data) current values it is monotonically
non-decreasing in current for direct indicators with target > baseline and
non-increasing for reverse indicators with target < baseline (a no-data
current such as -999 short-circuits to 0 and can break monotonicity). -/
theorem calculateProgress_clamped_and_monotone :
    (∀ (c b t : Option ℚ) (it : IndicatorType),
      ∃ p, calculateProgress c b t it = some p ∧ 0 ≤ p ∧ p ≤ 100) ∧
    (∀ (bv tv c₁ c₂ p₁ p₂ : ℚ), bv < tv →
      c₁ ≠ -999 → c₂ ≠ -999 → bv ≠ -999 → tv ≠ -999 → c₁ ≤ c₂ →
      calculateProgress (some c₁) (some bv) (some tv) .direct = some p₁ →
      calculateProgress (some c₂) (some bv) (some tv) .direct = some p₂ →
      p₁ ≤ p₂) ∧
    (∀ (bv tv c₁ c₂ p₁ p₂ : ℚ), tv < bv →
      c₁ ≠ -999 → c₂ ≠ -999 → bv ≠ -999 → tv ≠ -999 → c₁ ≤ c₂ →
      calculateProgress (some c₁) (some bv) (some tv) .reverse = some p₁ →
      calculateProgress (some c₂) (some bv) (some tv) .reverse = some p₂ →
      p₂ ≤ p₁) := by
  refine ⟨?_, ?_, ?_⟩
  · intro c b t it
    obtain ⟨p, hp⟩ := Option.isSome_iff_exists.mp (calculateProgress_isSome c b t it)
    exact ⟨p, hp, calculateProgress_bounds c b t it hp⟩
  · intro bv tv c₁ c₂ p₁ p₂ hbt hc₁ hc₂ hb ht hcc h₁ h₂
    have hr : tv - bv ≠ 0 := sub_ne_zero.mpr (ne_of_gt hbt)
    rw [calculateProgress_direct_valid c₁ bv tv hc₁ hb ht hr] at h₁
    rw [calculateProgress_direct_valid c₂ bv tv hc₂ hb ht hr] at h₂
    cases h₁; cases h₂
    by_cases ht1 : tv ≤ c₁
    · have ht2 : tv ≤ c₂ := le_trans ht1 hcc
      simp [ht1, ht2]
    · by_cases ht2 : tv ≤ c₂
      · simp only [ht1, ht2, if_true, if_false]
        exact (clamp100_mem _).2
      · simp only [ht1, ht2, if_false]
        apply clamp100_mono
        have hpos : 0 < tv - bv := by linarith
        gcongr
  · intro bv tv c₁ c₂ p₁ p₂ htb hc₁ hc₂ hb ht hcc h₁ h₂
    have hr : bv - tv ≠ 0 := sub_ne_zero.mpr (ne_of_gt htb)
    rw [calculateProgress_reverse_valid c₁ bv tv hc₁ hb ht hr] at h₁
    rw [calculateProgress_reverse_valid c₂ bv tv hc₂ hb ht hr] at h₂
    cases h₁; cases h₂
    by_cases ht2 : c₂ ≤ tv
    · have ht1 : c₁ ≤ tv := le_trans hcc ht2
      simp [ht1, ht2]
    · by_cases ht1 : c₁ ≤ tv
      · simp only [ht1, ht2, if_true, if_false]
        split_ifs
        · norm_num
        · exact (clamp100_mem _).2
      · simp only [ht1, ht2, if_false]
        by_cases hb1 : bv < c₁
        · have hb2 : bv < c₂ := lt_of_lt_of_le hb1 hcc
          simp [hb1, hb2]
        · by_cases hb2 : bv < c₂
          · simp only [hb1, hb2, if_true, if_false]
            exact (clamp100_mem _).1
          · simp only [hb1, hb2, if_false]
            apply clamp100_mono
            have hpos : 0 < bv - tv := by linarith
            gcongr

/-- Concrete instance of `calculateProgress_clamped_and_monotone`:
direct, baseline 0, target 10, currents 2 ≤ 6, progress 20 ≤ 60. -/
theorem calculateProgress_clamped_and_monotone_witness :
    (∃ p, calculateProgress (some 6) (some 0) (some 10) .direct = some p ∧
      0 ≤ p ∧ p ≤ 100) ∧
    ((20 : ℚ) ≤ 60) := by
  constructor
  · exact calculateProgress_clamped_and_monotone.1 (some 6) (some 0) (some 10) .direct
  · refine calculateProgress_clamped_and_monotone.2.1 0 10 2 6 20 60 (by norm_num)
      (by norm_num) (by norm_num) (by norm_num) (by norm_num) (by norm_num) ?_ ?_
    · rw [calculateProgress_direct_valid 2 0 10 (by norm_num) (by norm_num)
        (by norm_num) (by norm_num)]
      norm_num [clamp100]
    · rw [calculateProgress_direct_valid 6 0 10 (by norm_num) (by norm_num)
        (by norm_num) (by norm_num)]
      norm_num [clamp100]

/-- C6: `calculateProgress` never divides by zero (it always returns an
ordinary finite number, modelled by `some`), and on valid inputs with a
zero range (target = baseline for direct, baseline = target for reverse)
it returns 100 when current has reached the target and 0 otherwise — the
zero-range branch returns before any division. -/
theorem calculateProgress_zero_range_safe :
    (∀ (c b t : Option ℚ) (it : IndicatorType),
      (calculateProgress c b t it).isSome) ∧
    (∀ (cv bv tv : ℚ), cv ≠ -999 → bv ≠ -999 → tv ≠ -999 → tv = bv →
      calculateProgress (some cv) (some bv) (some tv) .direct =
        some (if tv ≤ cv then 100 else 0) ∧
      calculateProgress (some cv) (some bv) (some tv) .reverse =
        some (if cv ≤ tv then 100 else 0)) := by
  constructor
  · exact calculateProgress_isSome
  · intro cv bv tv hc hb ht htb
    subst htb
    constructor
    · simp only [calculateProgress, isNoData]
      simp [hc, hb, ht, ge_iff_le]
      split_ifs <;> rfl
    · simp only [calculateProgress, isNoData]
      simp [hc, hb, ht]
      by_cases h1 : cv ≤ tv
      · simp [h1]
      · have h2 : tv < cv := lt_of_not_le h1
        simp [h1, h2]

/-- Concrete instance of `calculateProgress_zero_range_safe`: current 3,
baseline = target = 5, both directions; direct gives 0, reverse gives 100. -/
theorem calculateProgress_zero_range_safe_witness :
    calculateProgress (some 3) (some 5) (some 5) .direct =
      some (if (5 : ℚ) ≤ 3 then 100 else 0) ∧
    calculateProgress (some 3) (some 5) (some 5) .reverse =
      some (if (3 : ℚ) ≤ 5 then 100 else 0) :=
  calculateProgress_zero_range_safe.2 3 5 5 (by norm_num) (by norm_num)
    (by norm_num) rfl

/-- C7: the part_002 import loop does not send each record in exactly one
batch payload.  At 51 merged records it performs two upsert calls and the
full 51-record list — in particular record 0 — is contained in both
payloads, while the sliced loop of part_003 sends record 0 in exactly its
first payload only. -/
theorem batch_upsert_duplicates_records :
    upsertPayloadsWhole (List.range 51) = [List.range 51, List.range 51] ∧
      upsertPayloadsSliced (List.range 51) = [List.range 50, [50]] ∧
      (0 : ℕ) ∈ List.range 51 := by
  refine ⟨by rfl, by rfl, by decide⟩

/-! ## Sorting lemmas for the `Array.prototype.sort` model -/

theorem perm_insertLe (le : α → α → Bool) (a : α) (l : List α) :
    (insertLe le a l).Perm (a :: l) := by
  induction l with
  | nil => simp [insertLe]
  | cons b t ih =>
    simp only [insertLe]
    split
    · exact List.Perm.refl _
    · exact ((ih.cons b).trans (List.Perm.swap a b t))

theorem perm_jsSortBy (le : α → α → Bool) (l : List α) :
    (jsSortBy le l).Perm l := by
  induction l with
  | nil => simp [jsSortBy]
  | cons a t ih =>
    simp only [jsSortBy]
    exact (perm_insertLe le a (jsSortBy le t)).trans (ih.cons a)

theorem mem_jsSortBy {le : α → α → Bool} {l : List α} {x : α} :
    x ∈ jsSortBy le l ↔ x ∈ l :=
  (perm_jsSortBy le l).mem_iff

/-- Inserting into a sorted list stays sorted, assuming only the
comparisons that actually involve the inserted element and the list's
elements (the comparator need not be globally transitive). -/
theorem pairwise_insertLe (le : α → α → Bool) (a : α) (l : List α)
    (hl : l.Pairwise (fun x y => le x y = true))
    (htot : ∀ b ∈ l, le a b = true ∨ le b a = true)
    (htr : ∀ b ∈ l, ∀ c ∈ l, le a b = true → le b c = true → le a c = true) :
    (insertLe le a l).Pairwise (fun x y => le x y = true) := by
  induction l with
  | nil => simp [insertLe]
  | cons b t ih =>
    simp only [insertLe]
    split
    · rename_i hab
      refine List.Pairwise.cons ?_ hl
      intro y hy
      rcases List.mem_cons.mp hy with rfl | hyt
      · exact hab
      · exact htr b (List.mem_cons_self b t) y (List.mem_cons_of_mem b hyt) hab
          ((List.pairwise_cons.mp hl).1 y hyt)
    · rename_i hab
      refine List.Pairwise.cons ?_ ?_
      · intro y hy
        have hy' : y ∈ a :: t := (perm_insertLe le a t).mem_iff.mp hy
        rcases List.mem_cons.mp hy' with rfl | hyt
        · rcases htot b (List.mem_cons_self b t) with h | h
          · exact absurd h hab
          · exact h
        · exact (List.pairwise_cons.mp hl).1 y hyt
      · exact ih (List.pairwise_cons.mp hl).2
          (fun c hc => htot c (List.mem_cons_of_mem b hc))
          (fun c hc d hd => htr c (List.mem_cons_of_mem b hc) d
            (List.mem_cons_of_mem b hd))

/-- The sort model produces a sorted list whenever the comparator is total
and transitive on the elements of the list being sorted. -/
theorem sorted_jsSortBy (le : α → α → Bool) (l : List α)
    (htot : ∀ a ∈ l, ∀ b ∈ l, le a b = true ∨ le b a = true)
    (htr : ∀ a ∈ l, ∀ b ∈ l, ∀ c ∈ l, le a b = true → le b c = true →
      le a c = true) :
    (jsSortBy le l).Pairwise (fun x y => le x y = true) := by
  induction l with
  | nil => simp [jsSortBy]
  | cons a t ih =>
    simp only [jsSortBy]
    refine pairwise_insertLe le a (jsSortBy le t) ?_ ?_ ?_
    · exact ih (fun x hx y hy => htot x (List.mem_cons_of_mem a hx) y
          (List.mem_cons_of_mem a hy))
        (fun x hx y hy z hz => htr x (List.mem_cons_of_mem a hx) y
          (List.mem_cons_of_mem a hy) z (List.mem_cons_of_mem a hz))
    · intro b hb
      exact htot a (List.mem_cons_self a t) b
        (List.mem_cons_of_mem a (mem_jsSortBy.mp hb))
    · intro b hb c hc
      exact htr a (List.mem_cons_self a t) b
        (List.mem_cons_of_mem a (mem_jsSortBy.mp hb)) c
        (List.mem_cons_of_mem a (mem_jsSortBy.mp hc))

/-- `disaggLe` is total. -/
theorem disaggLe_total (a b : DisaggregationData) :
    disaggLe a b = true ∨ disaggLe b a = true := by
  unfold disaggLe
  rcases lt_trichotomy a.category b.category with h | h | h
  · left; simp [h]
  · rcases le_total a.value b.value with h' | h'
    · left; simp [h, h', lt_irrefl]
    · right; simp [h, h', lt_irrefl]
  · right; simp [h]

/-- `disaggLe` is transitive. -/
theorem disaggLe_trans (a b c : DisaggregationData)
    (hab : disaggLe a b = true) (hbc : disaggLe b c = true) :
    disaggLe a c = true := by
  unfold disaggLe at *
  by_cases h1 : a.category < b.category
  · by_cases h2 : b.category < c.category
    · simp [lt_trans h1 h2]
    · by_cases h3 : c.category < b.category
      · simp [h2, h3] at hbc
      · have hbc' : b.category = c.category :=
          le_antisymm (not_lt.mp h3) (not_lt.mp h2)
        rw [hbc'] at h1
        simp [h1]
  · by_cases h1' : b.category < a.category
    · simp [h1, h1'] at hab
    · have hba : a.category = b.category :=
        le_antisymm (not_lt.mp h1') (not_lt.mp h1)
      simp only [h1, h1', if_false, decide_eq_true_eq] at hab
      by_cases h2 : b.category < c.category
      · rw [hba]
        simp [h2]
      · by_cases h3 : c.category < b.category
        · simp [h2, h3] at hbc
        · have hbc' : b.category = c.category :=
            le_antisymm (not_lt.mp h3) (not_lt.mp h2)
          simp only [h2, h3, if_false, decide_eq_true_eq] at hbc
          rw [hba, hbc']
          simp only [lt_irrefl, if_false, decide_eq_true_eq]
          exact le_trans hab hbc

theorem updPoint_year (row : Row) (p : TimeSeriesDataPoint) :
    (updPoint row p).year = p.year := by
  simp only [updPoint]
  repeat' split
  all_goals rfl

/-- Appending an entry that the dedupe `find` did not match preserves
pairwise distinctness of (category, value). -/
theorem disagg_append_pairwise (l : List DisaggregationData) (cat val : String)
    (pct : ℚ) (h : l.Pairwise DisaggDistinct)
    (hfind :
      ¬ (l.find? (fun d => d.category == cat && d.value == val)).isSome = true) :
    List.Pairwise DisaggDistinct
      (l ++ [{ category := cat, value := val, percentage := pct }]) := by
  rw [Option.not_isSome_iff_eq_none] at hfind
  refine List.pairwise_append.mpr ⟨h, by simp, ?_⟩
  intro d hd e he
  simp only [List.mem_singleton] at he
  subst he
  have hne := List.find?_eq_none.mp hfind d hd
  simp only [Bool.and_eq_true, beq_iff_eq, not_and] at hne
  intro hc
  exact hne hc.1 hc.2

theorem updPoint_disagg_pairwise (row : Row) (p : TimeSeriesDataPoint)
    (h : p.disaggregation.Pairwise DisaggDistinct) :
    (updPoint row p).disaggregation.Pairwise DisaggDistinct := by
  simp only [updPoint]
  repeat' split
  all_goals
    first
      | exact h
      | exact disagg_append_pairwise _ _ _ _ h (by assumption)

theorem updPoint_district_mem (row : Row) (p : TimeSeriesDataPoint)
    (d : DistrictDataPoint) (h : d ∈ (updPoint row p).district_data) :
    d ∈ p.district_data ∨
      d.district_code = jsPadStart row.district_code 4 '0' := by
  simp only [updPoint] at h
  repeat' split at h
  all_goals try exact Or.inl h
  all_goals
    rcases List.mem_append.mp h with h' | h'
    · exact Or.inl h'
    · simp only [List.mem_singleton] at h'
      subst h'
      exact Or.inr rfl

theorem updateFirstPoint_map_year (yr : String)
    (f : TimeSeriesDataPoint → TimeSeriesDataPoint)
    (hf : ∀ p, (f p).year = p.year) (l : List TimeSeriesDataPoint) :
    (updateFirstPoint yr f l).map (fun p => p.year) = l.map (fun p => p.year) := by
  induction l with
  | nil => rfl
  | cons p ps ih =>
    simp only [updateFirstPoint]
    split
    · simp [hf p]
    · simp [ih]

theorem mem_updateFirstPoint {yr : String}
    {f : TimeSeriesDataPoint → TimeSeriesDataPoint}
    {l : List TimeSeriesDataPoint} {q : TimeSeriesDataPoint}
    (h : q ∈ updateFirstPoint yr f l) : q ∈ l ∨ ∃ p ∈ l, q = f p := by
  induction l with
  | nil => simp [updateFirstPoint] at h
  | cons p ps ih =>
    simp only [updateFirstPoint] at h
    split at h
    · rcases List.mem_cons.mp h with rfl | h'
      · exact Or.inr ⟨p, List.mem_cons_self p ps, rfl⟩
      · exact Or.inl (List.mem_cons_of_mem p h')
    · rcases List.mem_cons.mp h with rfl | h'
      · exact Or.inl (List.mem_cons_self q ps)
      · rcases ih h' with h'' | ⟨r, hr, hq⟩
        · exact Or.inl (List.mem_cons_of_mem p h'')
        · exact Or.inr ⟨r, List.mem_cons_of_mem p hr, hq⟩

theorem addTimeSeries_id (row : Row) (i : Indicator) :
    (addTimeSeries row i).id = i.id := by
  simp only [addTimeSeries]
  repeat' split
  all_goals rfl

theorem pairwise_year_iff (l : List TimeSeriesDataPoint) :
    l.Pairwise (fun p q => p.year ≠ q.year) ↔
      (l.map (fun p => p.year)).Pairwise (fun a b => a ≠ b) :=
  (List.pairwise_map).symm

/-- The three possible shapes of the time series after one `addTimeSeries`
step: untouched, updated in place, or extended with a fresh point for a
year the `find` did not match. -/
theorem addTimeSeries_timeSeriesData_eq (row : Row) (i : Indicator) :
    (addTimeSeries row i).timeSeriesData = i.timeSeriesData ∨
    ((addTimeSeries row i).timeSeriesData =
        updateFirstPoint row.year (updPoint row) i.timeSeriesData) ∨
    (¬ ((i.timeSeriesData.find? (fun t => t.year == row.year)).isSome = true) ∧
      ∃ tot, (addTimeSeries row i).timeSeriesData =
        updateFirstPoint row.year (updPoint row) (i.timeSeriesData ++
          [{ year := row.year, total := tot
             disaggregation := [], district_data := [] }])) := by
  simp only [addTimeSeries]
  repeat' split
  all_goals
    first
      | exact Or.inl rfl
      | exact Or.inr (Or.inl rfl)
      | exact Or.inr (Or.inr ⟨by assumption, _, rfl⟩)

theorem updateFirstPoint_yearsDistinct (row : Row)
    (l : List TimeSeriesDataPoint)
    (h : l.Pairwise (fun p q => p.year ≠ q.year)) :
    (updateFirstPoint row.year (updPoint row) l).Pairwise
      (fun p q => p.year ≠ q.year) := by
  rw [pairwise_year_iff,
    updateFirstPoint_map_year row.year (updPoint row) (updPoint_year row),
    ← pairwise_year_iff]
  exact h

theorem yearsDistinct_append (l : List TimeSeriesDataPoint) (yr : String)
    (tot : Option ℚ)
    (hfind : ¬ ((l.find? (fun t => t.year == yr)).isSome = true))
    (h : l.Pairwise (fun p q => p.year ≠ q.year)) :
    List.Pairwise (fun p q => p.year ≠ q.year)
      (l ++ [{ year := yr, total := tot
               disaggregation := [], district_data := [] }]) := by
  rw [Option.not_isSome_iff_eq_none] at hfind
  refine List.pairwise_append.mpr ⟨h, by simp, ?_⟩
  intro p hp q hq
  simp only [List.mem_singleton] at hq
  subst hq
  have hne := List.find?_eq_none.mp hfind p hp
  simp only [beq_iff_eq] at hne
  exact hne

theorem addTimeSeries_yearsDistinct (row : Row) (i : Indicator)
    (h : YearsDistinct i) : YearsDistinct (addTimeSeries row i) := by
  unfold YearsDistinct at *
  rcases addTimeSeries_timeSeriesData_eq row i with he | he | ⟨hfind, tot, he⟩
  · rw [he]; exact h
  · rw [he]; exact updateFirstPoint_yearsDistinct row i.timeSeriesData h
  · rw [he]
    exact updateFirstPoint_yearsDistinct row _
      (yearsDistinct_append i.timeSeriesData row.year tot hfind h)

theorem updateFirstPoint_disaggOk (row : Row) (l : List TimeSeriesDataPoint)
    (h : ∀ p ∈ l, p.disaggregation.Pairwise DisaggDistinct) :
    ∀ q ∈ updateFirstPoint row.year (updPoint row) l,
      q.disaggregation.Pairwise DisaggDistinct := by
  intro q hq
  rcases mem_updateFirstPoint hq with hq' | ⟨p, hp, rfl⟩
  · exact h q hq'
  · exact updPoint_disagg_pairwise row p (h p hp)

theorem addTimeSeries_disaggOk (row : Row) (i : Indicator)
    (h : DisaggOk i) : DisaggOk (addTimeSeries row i) := by
  unfold DisaggOk at *
  rcases addTimeSeries_timeSeriesData_eq row i with he | he | ⟨hfind, tot, he⟩
  · rw [he]; exact h
  · rw [he]; exact updateFirstPoint_disaggOk row i.timeSeriesData h
  · rw [he]
    refine updateFirstPoint_disaggOk row _ ?_
    intro p hp
    rcases List.mem_append.mp hp with h' | h'
    · exact h p h'
    · simp only [List.mem_singleton] at h'
      subst h'
      simp

theorem updateFirstPoint_districtsFrom (data : List Row) (row : Row)
    (hrow : row ∈ data) (l : List TimeSeriesDataPoint)
    (h : ∀ p ∈ l, ∀ d ∈ p.district_data,
      ∃ r ∈ data, d.district_code = jsPadStart r.district_code 4 '0') :
    ∀ q ∈ updateFirstPoint row.year (updPoint row) l, ∀ d ∈ q.district_data,
      ∃ r ∈ data, d.district_code = jsPadStart r.district_code 4 '0' := by
  intro q hq d hd
  rcases mem_updateFirstPoint hq with hq' | ⟨p, hp, rfl⟩
  · exact h q hq' d hd
  · rcases updPoint_district_mem row p d hd with hd' | hd'
    · exact h p hp d hd'
    · exact ⟨row, hrow, hd'⟩

theorem addTimeSeries_districtsFrom (data : List Row) (row : Row)
    (hrow : row ∈ data) (i : Indicator) (h : DistrictsFrom data i) :
    DistrictsFrom data (addTimeSeries row i) := by
  unfold DistrictsFrom at *
  rcases addTimeSeries_timeSeriesData_eq row i with he | he | ⟨hfind, tot, he⟩
  · rw [he]; exact h
  · rw [he]; exact updateFirstPoint_districtsFrom data row hrow i.timeSeriesData h
  · rw [he]
    refine updateFirstPoint_districtsFrom data row hrow _ ?_
    intro p hp d hd
    rcases List.mem_append.mp hp with h' | h'
    · exact h p h' d hd
    · simp only [List.mem_singleton] at h'
      subst h'
      simp at hd

/-- One step of the `data.forEach` fold preserves any per-entry invariant
that the freshly created indicator satisfies and `addTimeSeries`
preserves. -/
theorem processRow_preserves (Q : String × Indicator → Prop) (data : List Row)
    (acc : List (String × Indicator)) (row : Row)
    (hinit : Q (row.indicatorId, initIndicator data row))
    (hupd : ∀ kv, Q kv → Q (kv.1, addTimeSeries row kv.2))
    (hacc : ∀ kv ∈ acc, Q kv) :
    ∀ kv ∈ processRow data acc row, Q kv := by
  intro kv hkv
  simp only [processRow] at hkv
  have hmain : ∀ kv0, Q kv0 →
      Q (if kv0.1 == row.indicatorId then (kv0.1, addTimeSeries row kv0.2)
         else kv0) := by
    intro kv0 hQ0
    split
    · exact hupd kv0 hQ0
    · exact hQ0
  split at hkv
  · rcases List.mem_map.mp hkv with ⟨kv0, hkv0, rfl⟩
    exact hmain kv0 (hacc kv0 hkv0)
  · rcases List.mem_map.mp hkv with ⟨kv0, hkv0, rfl⟩
    rcases List.mem_append.mp hkv0 with h' | h'
    · exact hmain kv0 (hacc kv0 h')
    · simp only [List.mem_singleton] at h'
      subst h'
      exact hmain _ hinit

/-- Folding `processRow` over rows drawn from `data` preserves a per-state
invariant. -/
theorem foldl_processRow_inv (P : List (String × Indicator) → Prop)
    (data : List Row)
    (hstep : ∀ acc r, r ∈ data → P acc → P (processRow data acc r)) :
    ∀ (rows : List Row), (∀ r ∈ rows, r ∈ data) →
      ∀ acc, P acc → P (rows.foldl (processRow data) acc) := by
  intro rows
  induction rows with
  | nil => intro _ acc hacc; exact hacc
  | cons r rs ih =>
    intro hsub acc hacc
    simp only [List.foldl_cons]
    exact ih (fun x hx => hsub x (List.mem_cons_of_mem r hx)) _
      (hstep acc r (hsub r (List.mem_cons_self r rs)) hacc)

theorem fold_entryOk (data : List Row) :
    ∀ kv ∈ data.foldl (processRow data) [], EntryOk data kv := by
  refine foldl_processRow_inv (fun acc => ∀ kv ∈ acc, EntryOk data kv) data
    ?_ data (fun _ h => h) [] (by simp)
  intro acc r hr hacc
  refine processRow_preserves (EntryOk data) data acc r ?_ ?_ hacc
  · refine ⟨rfl, ?_, ?_, ?_⟩
    · exact List.Pairwise.nil
    · intro p hp; simp [initIndicator] at hp
    · intro p hp; simp [initIndicator] at hp
  · rintro kv ⟨hid, hy, hd, hdi⟩
    exact ⟨(addTimeSeries_id r kv.2).trans hid,
      addTimeSeries_yearsDistinct r kv.2 hy,
      addTimeSeries_disaggOk r kv.2 hd,
      addTimeSeries_districtsFrom data r hr kv.2 hdi⟩

/-- Every output indicator is the post-processing of a fold entry that
satisfies the fold invariant. -/
theorem mem_processCSVData {data : List Row} {ind : Indicator}
    (h : ind ∈ processCSVData data) :
    ∃ i0, (YearsDistinct i0 ∧ DisaggOk i0 ∧ DistrictsFrom data i0) ∧
      ind = postProcessIndicator i0 := by
  simp only [processCSVData, List.map_map, List.mem_map] at h
  rcases h with ⟨kv, hkv, rfl⟩
  obtain ⟨_, hy, hd, hdi⟩ := fold_entryOk data kv hkv
  exact ⟨kv.2, ⟨hy, hd, hdi⟩, rfl⟩

/-! ## Field lemmas for the post-processing pass -/

theorem postProcessIndicator_timeSeriesData (i : Indicator) :
    (postProcessIndicator i).timeSeriesData =
      (jsSortBy pointYearLe (i.timeSeriesData.filter
          (fun point => point.total.isSome))).map
        (fun point =>
          { point with disaggregation := jsSortBy disaggLe point.disaggregation }) :=
  rfl

theorem postProcessIndicator_baseline (i : Indicator) :
    (postProcessIndicator i).baseline = i.baseline := rfl

theorem postProcessIndicator_target (i : Indicator) :
    (postProcessIndicator i).target = i.target := rfl

theorem postProcessIndicator_id (i : Indicator) :
    (postProcessIndicator i).id = i.id := rfl

/-- The final status recomputation (source lines 897-903) runs after the
backfill and uses the post-filter point count, so the stored status is
always `calculateStatus` of the stored fields. -/
theorem postProcessIndicator_status (i : Indicator) :
    (postProcessIndicator i).status =
      calculateStatus (postProcessIndicator i).current i.baseline i.target
        i.indicatorType (postProcessIndicator i).timeSeriesData.length :=
  rfl

/-- With at most one year of data, `calculateStatus` is determined by the
no-data test alone. -/
theorem calculateStatus_le_one (c b t : Option ℚ) (it : IndicatorType)
    (n : ℕ) (hn : n ≤ 1) :
    calculateStatus c b t it n =
      if isNoData c || isNoData b || isNoData t then Status.noData
      else Status.baselineOnly := by
  unfold calculateStatus
  by_cases hnd : (isNoData c || isNoData b || isNoData t) = true
  · simp [hnd]
  · simp [hnd, hn]

/-- C3 fails as stated: on `baselineRow` the indicator has exactly one
post-filter time-series point, yet its final status is `No Data` (the
final recomputation sees the missing baseline/target), not
`Baseline Only`. -/
theorem few_points_status_counterexample :
    (processCSVData [baselineRow]).map
        (fun i => (i.timeSeriesData.length, i.status)) = [(1, Status.noData)] ∧
      Status.noData ≠ Status.baselineOnly := by
  exact ⟨by decide, by decide⟩

/-- C3 (amended): an indicator with at most one post-filter time-series
point ends with status `Baseline Only` when its stored (possibly
backfilled) current, baseline and target are all valid, and `No Data`
otherwise — the forced `Baseline Only` of the post-processing pass is
itself overridden by the final status recomputation. -/
theorem few_points_status (data : List Row) (ind : Indicator)
    (h : ind ∈ processCSVData data) (hlen : ind.timeSeriesData.length ≤ 1) :
    ind.status =
      if isNoData ind.current || isNoData ind.baseline || isNoData ind.target
      then Status.noData else Status.baselineOnly := by
  rcases mem_processCSVData h with ⟨i0, _, rfl⟩
  rw [postProcessIndicator_status i0, calculateStatus_le_one _ _ _ _ _ hlen,
    postProcessIndicator_baseline i0, postProcessIndicator_target i0]

/-- Concrete instance of `few_points_status`: the single-point indicator
built from `fullRow` (valid values, so the status is `Baseline Only`). -/
theorem few_points_status_witness :
    (processCSVData [fullRow]).map (fun i => i.status) = [Status.baselineOnly] := by
  have hall : ∀ i ∈ processCSVData [fullRow], i.timeSeriesData.length ≤ 1 := by
    decide
  have h1 : (processCSVData [fullRow]).map (fun i => i.status) =
      (processCSVData [fullRow]).map (fun i =>
        if isNoData i.current || isNoData i.baseline || isNoData i.target
        then Status.noData else Status.baselineOnly) :=
    List.map_congr_left (fun i hi => few_points_status [fullRow] i hi (hall i hi))
  rw [h1]
  decide

/-! ## Sorting properties of the output time series -/

theorem pointYearLe_total (p q : TimeSeriesDataPoint) :
    pointYearLe p q = true ∨ pointYearLe q p = true := by
  unfold pointYearLe yearLe jsCompareNum
  cases jsParseInt p.year <;> cases jsParseInt q.year <;>
    simp only [decide_eq_true_eq] <;> omega

theorem pointYearLe_trans_of_some (p q r : TimeSeriesDataPoint)
    (hp : (jsParseInt p.year).isSome = true)
    (hq : (jsParseInt q.year).isSome = true)
    (hr : (jsParseInt r.year).isSome = true)
    (h1 : pointYearLe p q = true) (h2 : pointYearLe q r = true) :
    pointYearLe p r = true := by
  obtain ⟨a, ha⟩ := Option.isSome_iff_exists.mp hp
  obtain ⟨b, hb⟩ := Option.isSome_iff_exists.mp hq
  obtain ⟨c, hc⟩ := Option.isSome_iff_exists.mp hr
  unfold pointYearLe yearLe jsCompareNum at *
  rw [ha, hb] at h1
  rw [hb, hc] at h2
  rw [ha, hc]
  simp only [decide_eq_true_eq] at *
  omega

/-- The symmetric distinctness relation on years. -/
theorem yearNe_symm :
    ∀ {p q : TimeSeriesDataPoint}, p.year ≠ q.year → q.year ≠ p.year :=
  fun h => h.symm

theorem disaggDistinct_symm :
    ∀ {d e : DisaggregationData}, DisaggDistinct d e → DisaggDistinct e d :=
  fun h hc => h ⟨hc.1.symm, hc.2.symm⟩

/-- C5 (amended): in every indicator built by `processCSVData`, no two
time-series points share a year string, and each point's disaggregation
list is sorted by (category, value) with no duplicate (category, value)
pair; the points are sorted non-decreasingly by numeric year whenever all
their year strings parse as integers (a point with an unparseable year
string makes the NaN comparator return 0 and can leave parseable years
out of order). -/
theorem processCSVData_sorted_invariants (data : List Row) (ind : Indicator)
    (h : ind ∈ processCSVData data) :
    ind.timeSeriesData.Pairwise (fun p q => p.year ≠ q.year) ∧
      (∀ p ∈ ind.timeSeriesData,
        p.disaggregation.Pairwise (fun d e => disaggLe d e = true) ∧
          p.disaggregation.Pairwise DisaggDistinct) ∧
      ((∀ p ∈ ind.timeSeriesData, (jsParseInt p.year).isSome = true) →
        ind.timeSeriesData.Pairwise (fun p q => pointYearLe p q = true)) := by
  rcases mem_processCSVData h with ⟨i0, ⟨hy, hd, _⟩, rfl⟩
  rw [postProcessIndicator_timeSeriesData i0]
  set ts1 := i0.timeSeriesData.filter (fun point => point.total.isSome) with hts1
  have h1 : ts1.Pairwise (fun p q => p.year ≠ q.year) :=
    List.Pairwise.sublist (List.filter_sublist _) hy
  have hperm := perm_jsSortBy pointYearLe ts1
  refine ⟨?_, ?_, ?_⟩
  · have h2 : (jsSortBy pointYearLe ts1).Pairwise (fun p q => p.year ≠ q.year) :=
      (hperm.pairwise_iff (fun h => yearNe_symm h)).mpr h1
    exact List.pairwise_map.mpr h2
  · intro p hp
    rcases List.mem_map.mp hp with ⟨q, hq, rfl⟩
    have hq1 : q ∈ i0.timeSeriesData :=
      List.mem_of_mem_filter (mem_jsSortBy.mp hq)
    constructor
    · exact sorted_jsSortBy disaggLe q.disaggregation
        (fun a _ b _ => disaggLe_total a b)
        (fun a _ b _ c _ => disaggLe_trans a b c)
    · exact ((perm_jsSortBy disaggLe q.disaggregation).pairwise_iff
        (fun h => disaggDistinct_symm h)).mpr (hd q hq1)
  · intro hall
    have hall1 : ∀ q ∈ jsSortBy pointYearLe ts1, (jsParseInt q.year).isSome = true := by
      intro q hq
      have hmapped := hall _ (List.mem_map_of_mem
        (fun point =>
          { point with disaggregation := jsSortBy disaggLe point.disaggregation })
        hq)
      exact hmapped
    have hall2 : ∀ q ∈ ts1, (jsParseInt q.year).isSome = true := by
      intro q hq
      exact hall1 q (mem_jsSortBy.mpr hq)
    have hsorted : (jsSortBy pointYearLe ts1).Pairwise
        (fun p q => pointYearLe p q = true) :=
      sorted_jsSortBy pointYearLe ts1 (fun a _ b _ => pointYearLe_total a b)
        (fun a ha b hb c hc h1 h2 => pointYearLe_trans_of_some a b c
          (hall2 a ha) (hall2 b hb) (hall2 c hc) h1 h2)
    exact List.pairwise_map.mpr hsorted

/-- C5 fails as stated: with unparseable year strings in the mix, the NaN
comparator compares equal to everything and the output keeps year 9 before
year 5, so the points are not sorted ascending by numeric year. -/
theorem processCSVData_sorted_counterexample :
    (processCSVData sortCexRows).map
        (fun i => i.timeSeriesData.map (fun p => jsParseInt p.year)) =
      [[none, some 9, none, some 5]] ∧
      ¬ (processCSVData sortCexRows).map
          (fun i => decide (i.timeSeriesData.Pairwise
            (fun p q => pointYearLe p q = true))) = [true] := by
  exact ⟨by decide, by decide⟩

/-- Concrete instance of `processCSVData_sorted_invariants` on
`sortWitnessRows` (both years parse, so the points come out sorted). -/
theorem processCSVData_sorted_invariants_witness :
    ((processCSVData sortWitnessRows).headD emptyIndicator).timeSeriesData.Pairwise
        (fun p q => p.year ≠ q.year) ∧
      ((processCSVData sortWitnessRows).headD
          emptyIndicator).timeSeriesData.Pairwise
        (fun p q => pointYearLe p q = true) := by
  have hmem : (processCSVData sortWitnessRows).headD emptyIndicator ∈
      processCSVData sortWitnessRows := by
    have : processCSVData sortWitnessRows ≠ [] := by decide
    cases hl : processCSVData sortWitnessRows with
    | nil => exact absurd hl this
    | cons a t => simp [List.headD]
  have h := processCSVData_sorted_invariants sortWitnessRows _ hmem
  refine ⟨h.1, h.2.2 ?_⟩
  decide

/-! ## Grouping keys: every row's id (even the empty string) gets an entry -/

theorem step_key (row : Row) (kv : String × Indicator) :
    (if kv.1 == row.indicatorId then (kv.1, addTimeSeries row kv.2) else kv).1 =
      kv.1 := by
  split <;> rfl

theorem mem_keys_map_step (row : Row) (s : String)
    (L : List (String × Indicator)) (kv : String × Indicator)
    (hkv : kv ∈ L) (hk : kv.1 = s) :
    ∃ kv' ∈ L.map (fun kv => if kv.1 == row.indicatorId
      then (kv.1, addTimeSeries row kv.2) else kv), kv'.1 = s :=
  ⟨_, List.mem_map_of_mem _ hkv, (step_key row kv).trans hk⟩

theorem mem_keys_processRow (data : List Row) (acc : List (String × Indicator))
    (row : Row) (s : String)
    (hs : (∃ kv ∈ acc, kv.1 = s) ∨ s = row.indicatorId) :
    ∃ kv ∈ processRow data acc row, kv.1 = s := by
  simp only [processRow]
  split
  · rename_i hfind
    rcases hs with ⟨kv, hkv, hk⟩ | rfl
    · exact mem_keys_map_step row s acc kv hkv hk
    · obtain ⟨kv, hfs⟩ := Option.isSome_iff_exists.mp hfind
      have hkm := List.mem_of_find?_eq_some hfs
      have hkp := List.find?_some hfs
      simp only [beq_iff_eq] at hkp
      exact mem_keys_map_step row _ acc kv hkm hkp
  · rcases hs with ⟨kv, hkv, hk⟩ | rfl
    · exact mem_keys_map_step row s _ kv (List.mem_append_left _ hkv) hk
    · exact mem_keys_map_step row _ _ (row.indicatorId, initIndicator data row)
        (List.mem_append_right _ (List.mem_singleton_self _)) rfl

theorem key_mem_fold (data : List Row) (s : String) :
    ∀ (rows : List Row) (acc : List (String × Indicator)),
      ((∃ kv ∈ acc, kv.1 = s) ∨ ∃ r ∈ rows, r.indicatorId = s) →
      ∃ kv ∈ rows.foldl (processRow data) acc, kv.1 = s := by
  intro rows
  induction rows with
  | nil =>
    intro acc h
    rcases h with h | ⟨r, hr, _⟩
    · exact h
    · exact absurd hr (List.not_mem_nil r)
  | cons r rs ih =>
    intro acc h
    simp only [List.foldl_cons]
    rcases h with h | ⟨r', hr', hid⟩
    · exact ih _ (Or.inl (mem_keys_processRow data acc r s (Or.inl h)))
    · rcases List.mem_cons.mp hr' with rfl | hr''
      · exact ih _ (Or.inl (mem_keys_processRow data acc r' s (Or.inr hid.symm)))
      · exact ih _ (Or.inr ⟨r', hr'', hid⟩)

/-- C8 fails as stated: a row with an empty `Indicator ID` is not dropped;
`processedData[""]` is a legal object entry, so the output contains one
indicator whose id is the empty string. -/
theorem empty_id_counterexample :
    (processCSVData [emptyIdRow]).length = 1 ∧
      (processCSVData [emptyIdRow]).map (fun i => i.id) = [""] := by
  exact ⟨by decide, by decide⟩

/-- C8 (amended): rows whose `Indicator ID` is missing/empty are grouped
under the empty-string key like any other id and produce an indicator with
empty id in the output of `processCSVData`, rather than being dropped. -/
theorem empty_id_grouped (data : List Row)
    (h : ∃ r ∈ data, r.indicatorId = "") :
    ∃ ind ∈ processCSVData data, ind.id = "" := by
  obtain ⟨kv, hkv, hk⟩ := key_mem_fold data "" data [] (Or.inr h)
  have hid : kv.2.id = kv.1 := (fold_entryOk data kv hkv).1
  refine ⟨postProcessIndicator kv.2, ?_, ?_⟩
  · simp only [processCSVData, List.map_map]
    exact List.mem_map_of_mem _ hkv
  · rw [postProcessIndicator_id, hid, hk]

/-- Concrete instance of `empty_id_grouped` at `[emptyIdRow]`. -/
theorem empty_id_grouped_witness :
    ∃ ind ∈ processCSVData [emptyIdRow], ind.id = "" :=
  empty_id_grouped [emptyIdRow] ⟨emptyIdRow, List.mem_singleton_self _, rfl⟩

/-! ## District code padding and the map join -/

theorem jsPadStart_length (s : String) (n : ℕ) (c : Char) :
    n ≤ (jsPadStart s n c).length := by
  unfold jsPadStart
  split
  · omega
  · rename_i h
    push_neg at h
    have hrep : (String.mk (List.replicate (n - s.length) c)).length =
        n - s.length := by
      show (List.replicate (n - s.length) c).length = n - s.length
      exact List.length_replicate _ _
    rw [String.length_append, hrep]
    omega

/-- C9: every district code stored by `processCSVData` is the input row's
`district_code` left-zero-padded to at least 4 characters, the map joins a
feature to a district entry exactly when the stored code equals the
feature's `dcode` string, and consequently a `dcode` shorter than 4
characters (such as the unpadded "12", whose padded form is "0012") never
joins. -/
theorem district_codes_padded_and_join (data : List Row) (ind : Indicator)
    (hmem : ind ∈ processCSVData data) :
    (∀ p ∈ ind.timeSeriesData, ∀ d ∈ p.district_data,
      (∃ r ∈ data, d.district_code = jsPadStart r.district_code 4 '0') ∧
        4 ≤ d.district_code.length) ∧
      (∀ (dd : List DistrictDataPoint) (dcode : String),
        (findDistrict dd dcode).isSome = true ↔
          ∃ d ∈ dd, d.district_code = dcode) ∧
      (∀ p ∈ ind.timeSeriesData, ∀ dcode : String, dcode.length < 4 →
        findDistrict p.district_data dcode = none) ∧
      jsPadStart "12" 4 '0' = "0012" := by
  rcases mem_processCSVData hmem with ⟨i0, ⟨_, _, hdi⟩, rfl⟩
  have hpts : ∀ p ∈ (postProcessIndicator i0).timeSeriesData,
      ∀ d ∈ p.district_data,
      ∃ r ∈ data, d.district_code = jsPadStart r.district_code 4 '0' := by
    rw [postProcessIndicator_timeSeriesData i0]
    intro p hp
    rcases List.mem_map.mp hp with ⟨q, hq, rfl⟩
    have hq1 : q ∈ i0.timeSeriesData :=
      List.mem_of_mem_filter (mem_jsSortBy.mp hq)
    intro d hd
    exact hdi q hq1 d hd
  have hpad : ∀ p ∈ (postProcessIndicator i0).timeSeriesData,
      ∀ d ∈ p.district_data,
      (∃ r ∈ data, d.district_code = jsPadStart r.district_code 4 '0') ∧
        4 ≤ d.district_code.length := by
    intro p hp d hd
    obtain ⟨r, hr, he⟩ := hpts p hp d hd
    exact ⟨⟨r, hr, he⟩, he ▸ jsPadStart_length r.district_code 4 '0'⟩
  refine ⟨hpad, ?_, ?_, by decide⟩
  · intro dd dcode
    constructor
    · intro hs
      obtain ⟨d, hfs⟩ := Option.isSome_iff_exists.mp hs
      have hdm := List.mem_of_find?_eq_some hfs
      have hdp := List.find?_some hfs
      simp only [beq_iff_eq] at hdp
      exact ⟨d, hdm, hdp⟩
    · rintro ⟨d, hd, rfl⟩
      exact List.find?_isSome.mpr ⟨d, hd, by simp⟩
  · intro p hp dcode hlen
    apply List.find?_eq_none.mpr
    intro d hd
    simp only [beq_iff_eq]
    intro he
    have h4 := (hpad p hp d hd).2
    rw [he] at h4
    omega

/-- Concrete instance of `district_codes_padded_and_join`: code "12" is
stored as "0012"; the unpadded dcode "12" does not join the stored
district list. -/
theorem district_codes_padded_and_join_witness :
    findDistrict ((((processCSVData [districtRow]).headD
        emptyIndicator).timeSeriesData.headD emptyPoint)).district_data "12" =
      none ∧
      jsPadStart "12" 4 '0' = "0012" := by
  have hmem : (processCSVData [districtRow]).headD emptyIndicator ∈
      processCSVData [districtRow] := by
    cases hl : processCSVData [districtRow] with
    | nil =>
      have : processCSVData [districtRow] ≠ [] := by decide
      exact absurd hl this
    | cons a t => simp [List.headD]
  have h := district_codes_padded_and_join [districtRow] _ hmem
  refine ⟨h.2.2.1 _ ?_ "12" (by decide), h.2.2.2⟩
  decide

/-! ## Map color scale on an all-equal district value list -/

theorem foldl_min_const (v : ℚ) (l : List ℚ) (hl : ∀ x ∈ l, x = v) :
    l.foldl min v = v := by
  induction l with
  | nil => rfl
  | cons a t ih =>
    have ha : a = v := hl a (List.mem_cons_self a t)
    subst ha
    simp only [List.foldl_cons, min_self]
    exact ih (fun x hx => hl x (List.mem_cons_of_mem a hx))

theorem foldl_max_const (v : ℚ) (l : List ℚ) (hl : ∀ x ∈ l, x = v) :
    l.foldl max v = v := by
  induction l with
  | nil => rfl
  | cons a t ih =>
    have ha : a = v := hl a (List.mem_cons_self a t)
    subst ha
    simp only [List.foldl_cons, max_self]
    exact ih (fun x hx => hl x (List.mem_cons_of_mem a hx))

/-- C10: when all district values of the selected year are equal, min and
max coincide and `getColor` computes `(value - min) / (max - min) = 0 / 0`
with no guard: the normalized value is NaN (`none` in this model) for
every value in the list, so the produced `rgb(NaN, NaN, 255)` string is
not a valid color. -/
theorem equal_values_color_nan (v : ℚ) (l : List ℚ)
    (h : ∀ x ∈ v :: l, x = v) :
    jsMin (v :: l) = some v ∧ jsMax (v :: l) = some v ∧
      ∀ x ∈ v :: l, getColor x v v = none := by
  have hl : ∀ x ∈ l, x = v := fun x hx => h x (List.mem_cons_of_mem v hx)
  refine ⟨?_, ?_, ?_⟩
  · simp only [jsMin]
    rw [foldl_min_const v l hl]
  · simp only [jsMax]
    rw [foldl_max_const v l hl]
  · intro x hx
    simp [getColor, qdiv?, sub_self]

/-- Concrete instance of `equal_values_color_nan` at the two-district
value list `[4, 4]`. -/
theorem equal_values_color_nan_witness :
    jsMin [4, 4] = some 4 ∧ jsMax [4, 4] = some 4 ∧
      getColor 4 4 4 = none := by
  have h := equal_values_color_nan 4 [4] (by decide)
  exact ⟨h.1, h.2.1, h.2.2 4 (List.mem_cons_self 4 [4])⟩

end SDH
